import Mathlib

/-!
Shallow embedding of `sentieon_cli/command_strings.py`: the builders that
assemble sentieon driver command strings from a keyword-argument mapping.
Python dictionaries become association lists of dynamic values, dictionary
subscription becomes an `Except` lookup that can raise `KeyError`, and the
builders return `Except PyErr String` so that the exceptional control flow
of the source is explicit.
-/

set_option autoImplicit false

namespace Sentieon

/-- The Python exceptions that the builders in `command_strings.py` can
raise: subscription of a missing key, attribute access on an object without
the attribute, a failed `assert`, a `%`-format argument mismatch, list
subscription out of range, and a failed file open. -/
inductive PyErr where
  | keyError (key : String)
  | attributeError
  | assertionError
  | typeError
  | indexError
  | ioError (f : String)
  deriving DecidableEq, Repr

/-- A dynamic Python value as the builders see them: `None`, an integer,
a string, or a file-handle object carrying a `.name` attribute
(`io.TextIOWrapper` in the source). -/
inductive Value where
  | none
  | int (n : Int)
  | str (s : String)
  | handle (nm : String)
  deriving DecidableEq, Repr

/-- Python truthiness of a `Value` (`None`, `0` and `""` are falsy;
file objects are always truthy). -/
def Value.truthy : Value → Bool
  | Value.none => false
  | Value.int n => n != 0
  | Value.str s => s != ""
  | Value.handle _ => true

/-- How an f-string renders a `Value`.  The handle case stands in for the
CPython repr of a file object, which no builder ever renders. -/
def Value.toStr : Value → String
  | Value.none => "None"
  | Value.int n => toString n
  | Value.str s => s
  | Value.handle nm => "<file " ++ nm ++ ">"

/-- Direct `.name` attribute access on a `Value`: only file handles carry
the attribute, every other value raises `AttributeError`
(used by `cmd_algo_dnascope`, line 239 of the source). -/
def Value.nameAttr : Value → Except PyErr String
  | Value.handle nm => Except.ok nm
  | _ => Except.error PyErr.attributeError

/-- The kwargs mapping: parameter name to dynamic value. -/
abbrev Config := List (String × Value)

/-- `kwargs.get(key, default)`. -/
def Config.getD : Config → String → Value → Value
  | [], _, d => d
  | (k, v) :: rest, key, d => if k = key then v else Config.getD rest key d

/-- `kwargs.get(key)`: `None` when the key is absent. -/
def Config.get (c : Config) (key : String) : Value :=
  Config.getD c key Value.none

/-- `kwargs[key]`: raises `KeyError` when the key is absent. -/
def Config.getItem : Config → String → Except PyErr Value
  | [], key => Except.error (PyErr.keyError key)
  | (k, v) :: rest, key =>
      if k = key then Except.ok v else Config.getItem rest key

/-- `kwargs[key] = v`: replaces the binding when the key is present,
appends it otherwise. -/
def Config.set : Config → String → Value → Config
  | [], key, v => [(key, v)]
  | (k, w) :: rest, key, v =>
      if k = key then (key, v) :: rest else (k, w) :: Config.set rest key v

/-- Whether the mapping binds the key. -/
def Config.hasKey : Config → String → Bool
  | [], _ => false
  | (k, _) :: rest, key => k == key || Config.hasKey rest key

/-- `name(path)` from the source: return the `.name` attribute when the
value exposes one (`hasattr(path, "name")`), the value unchanged
otherwise. -/
def name : Value → Value
  | Value.handle nm => Value.str nm
  | v => v

/-- The `bed` local of `cmd_sentieon_driver` (source lines 125-128): the
interval clause when `bed_key` is given and `kwargs.get(bed_key)` is not
`None`, the empty string otherwise. -/
def intervalClause (kwargs : Config) : Option String → String
  | Option.none => ""
  | Option.some bk =>
    match Config.get kwargs bk with
    | Value.none => ""
    | v => " --interval " ++ (name v).toStr

/-- The `read_filter` local of `cmd_sentieon_driver` (source lines
129-132): present exactly when `kwargs.get("read-filter")` is truthy. -/
def readFilterClause (kwargs : Config) : String :=
  let rf := Config.get kwargs "read-filter"
  if rf.truthy then " --read_filter " ++ rf.toStr else ""

/-- `cmd_sentieon_driver(bed_key, skip_sample_input, **kwargs)`: the common
driver prefix.  Mirrors the source line by line: the interval clause is
built first from `kwargs.get(bed_key)`, the read-filter clause from
`kwargs.get("read-filter")`, then `kwargs["cores"]` and
`kwargs["reference"]` are subscripted (either may raise `KeyError`), and
`kwargs["sample_input"]` only when the sample input is not skipped. -/
def cmd_sentieon_driver (bed_key : Option String) (skip_sample_input : Bool)
    (kwargs : Config) : Except PyErr String :=
  let bed := intervalClause kwargs bed_key
  let read_filter := readFilterClause kwargs
  match Config.getItem kwargs "cores" with
  | Except.error e => Except.error e
  | Except.ok cores =>
    match Config.getItem kwargs "reference" with
    | Except.error e => Except.error e
    | Except.ok ref =>
      let cmd := "sentieon driver -t " ++ cores.toStr ++ " -r "
        ++ (name ref).toStr ++ " " ++ bed
      if skip_sample_input then
        Except.ok (cmd ++ read_filter)
      else
        match Config.getItem kwargs "sample_input" with
        | Except.error e => Except.error e
        | Except.ok si =>
            Except.ok (cmd ++ " -i " ++ (name si).toStr ++ read_filter)

/-- `cmd_variant_phaser(vcf, phased_bed, phased_vcf, phased_ext, kwargs)`:
driver prefix (no bed, with sample input) plus the VariantPhaser clause,
with the configurable depth cutoff `kwargs.get('phase_max_depth', 1000)`. -/
def cmd_variant_phaser (vcf phased_bed phased_vcf phased_ext : String)
    (kwargs : Config) : Except PyErr String :=
  match cmd_sentieon_driver Option.none false kwargs with
  | Except.error e => Except.error e
  | Except.ok cmd =>
      Except.ok (cmd
        ++ " --algo VariantPhaser -v " ++ vcf ++ " "
        ++ "--max_depth " ++ (Config.getD kwargs "phase_max_depth" (Value.int 1000)).toStr ++ " "
        ++ "--out_bed " ++ phased_bed ++ " "
        ++ "--out_ext " ++ phased_ext ++ " "
        ++ phased_vcf ++ " ")

/-- A file system snapshot: file name to content.  `cmd_bedtools_subtract`
is the only builder that touches it. -/
abbrev FS := List (String × String)

/-- Opening a file for reading: `IOError` when it does not exist. -/
def FS.read : FS → String → Except PyErr String
  | [], f => Except.error (PyErr.ioError f)
  | (g, c) :: rest, f => if g = f then Except.ok c else FS.read rest f

/-- Writing a file (create or truncate). -/
def FS.write : FS → String → String → FS
  | [], f, c => [(f, c)]
  | (g, d) :: rest, f, c =>
      if g = f then (f, c) :: rest else (g, d) :: FS.write rest f c

/-- Splitting a character list on a non-overlapping separator, scanning
left to right; the fuel argument is the length of the scanned list, which
strictly bounds the recursion.  Mirrors Python `str.split(sep)` for a
non-empty separator. -/
def splitOnAuxC (sep : List Char) : Nat → List Char → List (List Char)
  | _, [] => [[]]
  | 0, s => [s]
  | Nat.succ fuel, c :: rest =>
    if sep.isPrefixOf (c :: rest) then
      [] :: splitOnAuxC sep fuel (List.drop (sep.length - 1) rest)
    else
      match splitOnAuxC sep fuel rest with
      | t :: ts => (c :: t) :: ts
      | [] => [[c]]

/-- Python `s.split(sep)` for the non-empty separators the source uses. -/
def pySplit (s sep : String) : List String :=
  (splitOnAuxC sep.data s.data.length s.data).map String.mk

/-- Python `s.replace(patt, rep)`: every non-overlapping occurrence, left
to right — equivalently, split on the pattern and join with the
replacement. -/
def pyReplace (s patt rep : String) : String :=
  String.mk (List.intercalate rep.data (splitOnAuxC patt.data s.data.length s.data))

/-- Python `s.strip()`: drop whitespace from both ends. -/
def pyStrip (s : String) : String :=
  String.mk (((s.data.dropWhile Char.isWhitespace).reverse.dropWhile
    Char.isWhitespace).reverse)

/-- The lines produced by iterating over a text file, without their
trailing newline: iteration yields no line for a trailing `"\n"`, and every
consumer strips the line before use, so the newline itself is immaterial. -/
def pyLines (s : String) : List String :=
  let parts := pySplit s "\n"
  if parts.getLast? = Option.some "" then parts.dropLast else parts

/-- The loop of `cmd_bedtools_subtract`: for each index line, split the
stripped line on tabs and emit `toks[0] ++ "\t0\t" ++ toks[1] ++ "\n"`;
subscription past the end raises `IndexError`. -/
def faiToBed : List String → Except PyErr String
  | [] => Except.ok ""
  | line :: rest =>
    let toks := pySplit (pyStrip line) "\t"
    match toks.get? 0, toks.get? 1 with
    | Option.some t0, Option.some t1 =>
      match faiToBed rest with
      | Except.ok r => Except.ok (t0 ++ "\t0\t" ++ t1 ++ "\n" ++ r)
      | Except.error e => Except.error e
    | _, _ => Except.error PyErr.indexError

/-- `cmd_bedtools_subtract(regions_bed, phased_bed, unphased_bed, **kwargs)`.
When `regions_bed` is `None` the builder synthesizes
`{tmp_base}_reference.bed` from the reference index `{reference}.fai` and
uses it as the `-a` argument.  The error paths drop the file-system
component, matching that no command string is returned on an exception. -/
def cmd_bedtools_subtract (regions_bed : Option Value)
    (phased_bed unphased_bed : String) (kwargs : Config) (fs : FS) :
    Except PyErr (String × FS) :=
  match regions_bed with
  | Option.some rb =>
      Except.ok ("bedtools subtract -a " ++ (name rb).toStr ++ " -b "
        ++ phased_bed ++ " " ++ "> " ++ unphased_bed, fs)
  | Option.none =>
    match Config.getItem kwargs "tmp_base" with
    | Except.error e => Except.error e
    | Except.ok tb =>
      let bedfile := tb.toStr ++ "_reference.bed"
      match Config.getItem kwargs "reference" with
      | Except.error e => Except.error e
      | Except.ok ref =>
        match FS.read fs ((name ref).toStr ++ ".fai") with
        | Except.error e => Except.error e
        | Except.ok fai =>
          match faiToBed (pyLines fai) with
          | Except.error e => Except.error e
          | Except.ok content =>
              Except.ok ("bedtools subtract -a " ++ bedfile ++ " -b "
                ++ phased_bed ++ " " ++ "> " ++ unphased_bed,
                FS.write fs bedfile content)

/-- `cmd_repeat_model(phased_bed, phased_ext, kwargs)`.  The source mutates
`kwargs` — it stores `phased_bed` before building the driver prefix and
`repeat_model` afterwards — so the embedding returns the command string
together with the mapping as it stands after the call. -/
def cmd_repeat_model (phased_bed phased_ext : String) (kwargs : Config) :
    Except PyErr (String × Config) :=
  let kwargs1 := Config.set kwargs "phased_bed" (Value.str phased_bed)
  match cmd_sentieon_driver (Option.some "phased_bed") false kwargs1 with
  | Except.error e => Except.error e
  | Except.ok cmd =>
    match Config.getItem kwargs1 "tmp_base" with
    | Except.error e => Except.error e
    | Except.ok tb =>
      let repeat_model := tb.toStr ++ "/out_repeat.model"
      let kwargs2 := Config.set kwargs1 "repeat_model" (Value.str repeat_model)
      Except.ok (cmd
        ++ " --read_filter PhasedReadFilter,phased_vcf=" ++ phased_ext
        ++ ",phase_select=tag "
        ++ "--algo RepeatModel --phased --min_map_qual 1 "
        ++ "--min_group_count 10000 "
        ++ "--read_flag_mask drop=supplementary --repeat_extension 5 "
        ++ "--max_repeat_unit_size 2 --min_repeat_count 6 "
        ++ repeat_model, kwargs2)

/-- `cmd_model_apply(model, inp_vcf, out_vcf, kwargs)`: driver prefix with
the sample input suppressed, then the DNAModelApply clause. -/
def cmd_model_apply (model inp_vcf out_vcf : String) (kwargs : Config) :
    Except PyErr String :=
  match cmd_sentieon_driver Option.none true kwargs with
  | Except.error e => Except.error e
  | Except.ok cmd =>
      Except.ok (cmd ++ "--algo DNAModelApply --model " ++ model
        ++ " -v " ++ inp_vcf ++ " " ++ out_vcf)

/-- Python `%`-formatting restricted to what the source feeds it: `%d`
consumes an integer argument (`TypeError` otherwise), `%s` consumes any
argument rendered as a string, `%%` is a literal percent, and leftover
arguments raise `TypeError`. -/
def pyMod : List Char → List Value → Except PyErr (List Char)
  | [], [] => Except.ok []
  | [], _ :: _ => Except.error PyErr.typeError
  | '%' :: '%' :: rest, args =>
    match pyMod rest args with
    | Except.ok t => Except.ok ('%' :: t)
    | Except.error e => Except.error e
  | '%' :: 'd' :: rest, Value.int n :: args =>
    match pyMod rest args with
    | Except.ok t => Except.ok ((toString n).data ++ t)
    | Except.error e => Except.error e
  | '%' :: 'd' :: _, _ => Except.error PyErr.typeError
  | '%' :: 's' :: rest, v :: args =>
    match pyMod rest args with
    | Except.ok t => Except.ok (v.toStr.data ++ t)
    | Except.error e => Except.error e
  | '%' :: 's' :: _, [] => Except.error PyErr.typeError
  | c :: rest, args =>
    match pyMod rest args with
    | Except.ok t => Except.ok (c :: t)
    | Except.error e => Except.error e

/-- `patt % args` on strings. -/
def pyFormat (patt : String) (args : List Value) : Except PyErr String :=
  match pyMod patt.data args with
  | Except.ok t => Except.ok (String.mk t)
  | Except.error e => Except.error e

/-- `cmd_pyexec_vcf_mod_haploid_patch(hap1_patch, hap2_patch, hap_patt,
tech, phased_vcf, kwargs)`: asserts the technology tag is `"HiFi"` or
`"ONT"`, emits the `--hap1`/`--hap2` clauses from the `nohp_` pattern for
HiFi and the `--phased` clause for ONT, and always ends with the two
high-precision per-haplotype clauses from the empty-infix pattern. -/
def cmd_pyexec_vcf_mod_haploid_patch (hap1_patch hap2_patch hap_patt : String)
    (tech : String) (phased_vcf : Value) (kwargs : Config) :
    Except PyErr String :=
  if tech = "HiFi" ∨ tech = "ONT" then
    match Config.getItem kwargs "vcf_mod_py" with
    | Except.error e => Except.error e
    | Except.ok py =>
      match Config.getItem kwargs "cores" with
      | Except.error e => Except.error e
      | Except.ok cores =>
        let cmd := "sentieon pyexec " ++ py.toStr ++ " -t "
          ++ cores.toStr ++ " " ++ "haploid_patch "
          ++ "--patch1 " ++ hap1_patch ++ " --patch2 " ++ hap2_patch
        let branch :=
          if tech = "HiFi" then
            match pyFormat hap_patt [Value.int 1, Value.str "nohp_"] with
            | Except.error e => Except.error e
            | Except.ok h1 =>
              match pyFormat hap_patt [Value.int 2, Value.str "nohp_"] with
              | Except.error e => Except.error e
              | Except.ok h2 =>
                  Except.ok (cmd ++ " --hap1 " ++ h1 ++ " --hap2 " ++ h2)
          else
            Except.ok (cmd ++ " --phased " ++ phased_vcf.toStr)
        match branch with
        | Except.error e => Except.error e
        | Except.ok cmd2 =>
          match pyFormat hap_patt [Value.int 1, Value.str ""] with
          | Except.error e => Except.error e
          | Except.ok g1 =>
            match pyFormat hap_patt [Value.int 2, Value.str ""] with
            | Except.error e => Except.error e
            | Except.ok g2 =>
                Except.ok (cmd2 ++ " --hap1_hp " ++ g1 ++ " --hap2_hp " ++ g2)
  else Except.error PyErr.assertionError

/-- `cmd_pyexec_vcf_mod_patch(out_vcf, vcf, vcf_hp, kwargs)`: patch a
DNAscope VCF with a DNAscopeHP VCF. -/
def cmd_pyexec_vcf_mod_patch (out_vcf vcf vcf_hp : String) (kwargs : Config) :
    Except PyErr String :=
  match Config.getItem kwargs "vcf_mod_py" with
  | Except.error e => Except.error e
  | Except.ok py =>
    match Config.getItem kwargs "cores" with
    | Except.error e => Except.error e
    | Except.ok cores =>
        Except.ok ("sentieon pyexec " ++ py.toStr ++ " -t " ++ cores.toStr
          ++ " " ++ "patch --vcf " ++ vcf ++ " --vcf_hp " ++ vcf_hp ++ " "
          ++ out_vcf)

/-- `cmd_pyexec_gvcf_combine(gvcf, out_vcf, kwargs)`: the combine step
piped into `sentieon util vcfconvert`, whose target is
`out_vcf.replace(".vcf.gz", ".g.vcf.gz")` — Python `str.replace`
substitutes every occurrence. -/
def cmd_pyexec_gvcf_combine (gvcf out_vcf : String) (kwargs : Config) :
    Except PyErr String :=
  match Config.getItem kwargs "gvcf_combine_py" with
  | Except.error e => Except.error e
  | Except.ok py =>
    match Config.getItem kwargs "cores" with
    | Except.error e => Except.error e
    | Except.ok cores =>
        Except.ok ("sentieon pyexec " ++ py.toStr ++ " -t " ++ cores.toStr
          ++ " " ++ gvcf ++ " " ++ out_vcf ++ " -"
          ++ " | sentieon util vcfconvert - "
          ++ pyReplace out_vcf ".vcf.gz" ".g.vcf.gz")

/-- `cmd_pyexec_vcf_mod_merge(hap1_vcf, hap2_vcf, unphased_vcf, phased_vcf,
phased_bed, out_vcf, kwargs)`: the final haploid merge. -/
def cmd_pyexec_vcf_mod_merge
    (hap1_vcf hap2_vcf unphased_vcf phased_vcf phased_bed out_vcf : String)
    (kwargs : Config) : Except PyErr String :=
  match Config.getItem kwargs "vcf_mod_py" with
  | Except.error e => Except.error e
  | Except.ok py =>
    match Config.getItem kwargs "cores" with
    | Except.error e => Except.error e
    | Except.ok cores =>
        Except.ok ("sentieon pyexec " ++ py.toStr ++ " -t " ++ cores.toStr
          ++ " " ++ "merge --hap1 " ++ hap1_vcf ++ " --hap2 " ++ hap2_vcf
          ++ " --unphased " ++ unphased_vcf ++ " "
          ++ "--phased " ++ phased_vcf ++ " --bed " ++ phased_bed ++ " "
          ++ out_vcf)

/-- The `gvcf_str` local of `cmd_algo_dnascope` (source lines 231-237):
empty when `gvcf` is falsy, otherwise the gVCF-emission clause, which
subscripts `kwargs["model_bundle"]`. -/
def gvcfClause (kwargs : Config) (gvcf : Value) : Except PyErr String :=
  if gvcf.truthy then
    match Config.getItem kwargs "model_bundle" with
    | Except.error e => Except.error e
    | Except.ok mb =>
        Except.ok (" --algo DNAscope --model " ++ mb.toStr ++ "/gvcf_model"
          ++ " --emit_mode gvcf " ++ gvcf.toStr ++ " ")
  else Except.ok ""

/-- The `dbsnp` local of `cmd_algo_dnascope` (source lines 238-241): empty
when `kwargs.get("dbsnp")` is falsy, otherwise built from the direct
attribute access `kwargs['dbsnp'].name`. -/
def dbsnpClause (kwargs : Config) : Except PyErr String :=
  if (Config.get kwargs "dbsnp").truthy then
    match (Config.get kwargs "dbsnp").nameAttr with
    | Except.error e => Except.error e
    | Except.ok nm => Except.ok (" --dbsnp " ++ nm ++ " ")
  else Except.ok ""

/-- `cmd_algo_dnascope(model, out_vcf, kwargs, bed_key, gvcf)`: the gVCF
clause, then the dbSNP clause from the direct attribute access
`kwargs['dbsnp'].name` (not the `name` helper), then the driver prefix,
built last and prepended. -/
def cmd_algo_dnascope (model out_vcf : String) (kwargs : Config)
    (bed_key : Option String := Option.none) (gvcf : Value := Value.none) :
    Except PyErr String :=
  match gvcfClause kwargs gvcf with
  | Except.error e => Except.error e
  | Except.ok gstr =>
    match dbsnpClause kwargs with
    | Except.error e => Except.error e
    | Except.ok dbsnp =>
      let cmd := " " ++ gstr ++ "--algo DNAscope " ++ dbsnp ++ " --model "
        ++ model ++ " " ++ out_vcf
      match cmd_sentieon_driver bed_key false kwargs with
      | Except.error e => Except.error e
      | Except.ok drv => Except.ok (drv ++ cmd)

/-- `cmd_dnascope_hp(model, repeat_model, hp_vcf, kwargs)`: the DNAscopeHP
fragment.  The dbSNP clause goes through the `name` helper and is guarded
by truthiness; the model clause is omitted when `model` is `None`. -/
def cmd_dnascope_hp (model : Option String) (repeat_model hp_vcf : String)
    (kwargs : Config) : String :=
  let cmd := "--algo DNAscopeHP "
  let cmd :=
    if (Config.get kwargs "dbsnp").truthy then
      cmd ++ "--dbsnp " ++ (name (Config.get kwargs "dbsnp")).toStr ++ " "
    else cmd
  let cmd :=
    match model with
    | Option.some m => cmd ++ "--model " ++ m ++ " "
    | Option.none => cmd
  cmd ++ "--pcr_indel_model " ++ repeat_model ++ " --min_repeat_count 6 "
    ++ hp_vcf

example :
    cmd_sentieon_driver (Option.some "regions") false
      [("regions", Value.str "phased.bed"), ("reference", Value.str "ref.fasta"),
       ("sample_input", Value.str "sample.bam"), ("cores", Value.int 4)]
    = Except.ok
        "sentieon driver -t 4 -r ref.fasta  --interval phased.bed -i sample.bam" := by
  rfl

example :
    cmd_sentieon_driver (Option.some "regions") true
      [("regions", Value.str "phased.bed"), ("reference", Value.str "ref.fasta"),
       ("sample_input", Value.str "sample.bam"), ("cores", Value.int 4)]
    = Except.ok "sentieon driver -t 4 -r ref.fasta  --interval phased.bed" := by
  rfl

example :
    cmd_sentieon_driver (Option.some "regions") true
      [("regions", Value.str "phased.bed"), ("reference", Value.str "ref.fasta"),
       ("sample_input", Value.str "sample.bam"), ("cores", Value.int 4),
       ("read-filter", Value.str "PhasedReadFilter,phased_vcf=p.vcf.gz")]
    = Except.ok
        "sentieon driver -t 4 -r ref.fasta  --interval phased.bed --read_filter PhasedReadFilter,phased_vcf=p.vcf.gz" := by
  rfl

/-! ## Verified properties -/

/-- C9: the path-resolution helper `name` is total over the dynamic values:
it returns the `.name` attribute's value for every value exposing one,
returns every other value unchanged, and is idempotent. -/
theorem name_resolution_total_idempotent :
    (∀ nm, name (Value.handle nm) = Value.str nm)
    ∧ (∀ v, (∀ nm, v ≠ Value.handle nm) → name v = v)
    ∧ (∀ v, name (name v) = name v) := by
  refine ⟨fun nm => rfl, fun v hv => ?_, fun v => ?_⟩
  · cases v with
    | none => rfl
    | int n => rfl
    | str s => rfl
    | handle nm => exact absurd rfl (hv nm)
  · cases v <;> rfl

/-- Witness for C9 at a plain string path. -/
theorem name_resolution_witness :
    name (Value.str "ref.fasta") = Value.str "ref.fasta" :=
  name_resolution_total_idempotent.2.1 (Value.str "ref.fasta")
    (fun _ h => Value.noConfusion h)

/-- C1: whenever the mapping binds `cores` and `reference` (and
`sample_input` when the sample input is not skipped), `cmd_sentieon_driver`
returns exactly the thread/reference segment followed, in this fixed
order, by the interval clause (present iff `bed_key` is given and maps to
a non-`None` value, empty otherwise), the sample-input clause (present iff
not skipped), and the read-filter clause (present iff the `read-filter`
key holds a truthy value). -/
theorem cmd_sentieon_driver_spec (bed_key : Option String) (skip : Bool)
    (kwargs : Config) (cores ref si : Value)
    (hc : Config.getItem kwargs "cores" = Except.ok cores)
    (hr : Config.getItem kwargs "reference" = Except.ok ref)
    (hs : skip = false → Config.getItem kwargs "sample_input" = Except.ok si) :
    cmd_sentieon_driver bed_key skip kwargs =
      Except.ok ("sentieon driver -t " ++ cores.toStr ++ " -r "
        ++ (name ref).toStr ++ " "
        ++ intervalClause kwargs bed_key
        ++ (if skip then "" else " -i " ++ (name si).toStr)
        ++ readFilterClause kwargs) := by
  cases skip with
  | false =>
    simp only [cmd_sentieon_driver, hc, hr, hs rfl, if_neg Bool.false_ne_true,
      Bool.false_eq_true, if_false]
    rw [String.append_assoc _ " -i " ((name si).toStr)]
  | true =>
    simp only [cmd_sentieon_driver, hc, hr, if_true]
    rw [String.append_empty]

/-- Witness for C1: the doctest configuration, two spaces before
`--interval`. -/
theorem cmd_sentieon_driver_spec_witness :
    cmd_sentieon_driver (Option.some "regions") false
      [("regions", Value.str "phased.bed"), ("reference", Value.str "ref.fasta"),
       ("sample_input", Value.str "sample.bam"), ("cores", Value.int 4)]
    = Except.ok
        "sentieon driver -t 4 -r ref.fasta  --interval phased.bed -i sample.bam" := by
  have h := cmd_sentieon_driver_spec (Option.some "regions") false
    [("regions", Value.str "phased.bed"), ("reference", Value.str "ref.fasta"),
     ("sample_input", Value.str "sample.bam"), ("cores", Value.int 4)]
    (Value.int 4) (Value.str "ref.fasta") (Value.str "sample.bam")
    rfl rfl (fun _ => rfl)
  exact h.trans (by rfl)

theorem Config.getItem_error_of_hasKey_false (c : Config) (k : String)
    (h : Config.hasKey c k = false) :
    Config.getItem c k = Except.error (PyErr.keyError k) := by
  induction c with
  | nil => rfl
  | cons p rest ih =>
    obtain ⟨k0, v0⟩ := p
    simp only [Config.hasKey, Bool.or_eq_false_iff, beq_eq_false_iff_ne] at h
    simp only [Config.getItem, if_neg h.1]
    exact ih h.2

theorem Config.hasKey_set_ne (c : Config) (k1 k2 : String) (v : Value)
    (h : k1 ≠ k2) :
    Config.hasKey (Config.set c k1 v) k2 = Config.hasKey c k2 := by
  induction c with
  | nil => simp [Config.set, Config.hasKey, h]
  | cons p rest ih =>
    obtain ⟨k0, v0⟩ := p
    by_cases hk : k0 = k1
    · simp [Config.set, hk, Config.hasKey, h]
    · simp [Config.set, hk, Config.hasKey, ih]

theorem Config.getItem_set_ne (c : Config) (k1 k2 : String) (v : Value)
    (h : k1 ≠ k2) :
    Config.getItem (Config.set c k1 v) k2 = Config.getItem c k2 := by
  induction c with
  | nil => simp [Config.set, Config.getItem, h]
  | cons p rest ih =>
    obtain ⟨k0, v0⟩ := p
    by_cases hk : k0 = k1
    · simp [Config.set, hk, Config.getItem, h, ih]
    · simp [Config.set, hk, Config.getItem, ih]

theorem Config.get_of_getItem_ok (c : Config) (k : String) (v : Value)
    (h : Config.getItem c k = Except.ok v) : Config.get c k = v := by
  induction c with
  | nil => exact absurd h (by simp [Config.getItem])
  | cons p rest ih =>
    obtain ⟨k0, v0⟩ := p
    by_cases hk : k0 = k
    · simp only [Config.getItem, if_pos hk] at h
      simp only [Config.get, Config.getD, if_pos hk]
      exact (Except.ok.injEq _ _).mp h
    · simp only [Config.getItem, if_neg hk] at h
      simp only [Config.get, Config.getD, if_neg hk]
      exact ih h

theorem cmd_sentieon_driver_error_of_missing (bk : Option String) (ssi : Bool)
    (kwargs : Config)
    (h : Config.hasKey kwargs "cores" = false
       ∨ Config.hasKey kwargs "reference" = false) :
    ∃ e, cmd_sentieon_driver bk ssi kwargs = Except.error e := by
  rcases h with h | h
  · refine ⟨PyErr.keyError "cores", ?_⟩
    unfold cmd_sentieon_driver
    rw [Config.getItem_error_of_hasKey_false _ _ h]
  · cases hc : Config.getItem kwargs "cores" with
    | error e =>
      refine ⟨e, ?_⟩
      unfold cmd_sentieon_driver
      rw [hc]
    | ok c =>
      refine ⟨PyErr.keyError "reference", ?_⟩
      unfold cmd_sentieon_driver
      rw [hc, Config.getItem_error_of_hasKey_false _ _ h]

/-- C7: a mapping lacking `cores` or lacking `reference` makes
`cmd_sentieon_driver` — and every stage builder that wraps it — fail with
an error instead of returning a command string. -/
theorem missing_required_keys_fail (bk bk2 : Option String) (ssi : Bool)
    (kwargs : Config) (vcf pb pv pe m iv ov pb2 pe2 m2 ov2 : String)
    (g : Value)
    (h : Config.hasKey kwargs "cores" = false
       ∨ Config.hasKey kwargs "reference" = false) :
    (∃ e, cmd_sentieon_driver bk ssi kwargs = Except.error e)
    ∧ (∃ e, cmd_variant_phaser vcf pb pv pe kwargs = Except.error e)
    ∧ (∃ e, cmd_model_apply m iv ov kwargs = Except.error e)
    ∧ (∃ e, cmd_repeat_model pb2 pe2 kwargs = Except.error e)
    ∧ (∃ e, cmd_algo_dnascope m2 ov2 kwargs bk2 g = Except.error e) := by
  obtain ⟨e0, he0⟩ := cmd_sentieon_driver_error_of_missing Option.none false kwargs h
  obtain ⟨e1, he1⟩ := cmd_sentieon_driver_error_of_missing Option.none true kwargs h
  obtain ⟨e2, he2⟩ := cmd_sentieon_driver_error_of_missing bk2 false kwargs h
  refine ⟨cmd_sentieon_driver_error_of_missing bk ssi kwargs h, ?_, ?_, ?_, ?_⟩
  · refine ⟨e0, ?_⟩
    unfold cmd_variant_phaser
    rw [he0]
  · refine ⟨e1, ?_⟩
    unfold cmd_model_apply
    rw [he1]
  · have h' : Config.hasKey (Config.set kwargs "phased_bed" (Value.str pb2)) "cores" = false
        ∨ Config.hasKey (Config.set kwargs "phased_bed" (Value.str pb2)) "reference" = false := by
      rcases h with h | h
      · exact Or.inl ((Config.hasKey_set_ne kwargs _ _ _ (by decide)).trans h)
      · exact Or.inr ((Config.hasKey_set_ne kwargs _ _ _ (by decide)).trans h)
    obtain ⟨e3, he3⟩ := cmd_sentieon_driver_error_of_missing
      (Option.some "phased_bed") false _ h'
    refine ⟨e3, ?_⟩
    simp only [cmd_repeat_model]
    rw [he3]
  · cases hg : gvcfClause kwargs g with
    | error e =>
      refine ⟨e, ?_⟩
      unfold cmd_algo_dnascope
      rw [hg]
    | ok gstr =>
      cases hdb : dbsnpClause kwargs with
      | error e =>
        refine ⟨e, ?_⟩
        unfold cmd_algo_dnascope
        rw [hg, hdb]
      | ok dbsnp =>
        refine ⟨e2, ?_⟩
        unfold cmd_algo_dnascope
        rw [hg, hdb, he2]

/-- Witness for C7: a mapping with a reference but no `cores` makes the
driver builder fail. -/
theorem missing_required_keys_fail_witness :
    ∃ e, cmd_sentieon_driver Option.none false
      [("reference", Value.str "ref.fasta")] = Except.error e :=
  (missing_required_keys_fail Option.none Option.none false
    [("reference", Value.str "ref.fasta")] "v" "p" "q" "x" "m" "i" "o" "p2"
    "e2" "m2" "o2" Value.none (Or.inl rfl)).1

/-- C2 fails on the code: `cmd_repeat_model` does not leave the mapping it
receives unchanged — on this four-key configuration the mapping after the
call differs from the mapping before it. -/
theorem cmd_repeat_model_mutates_config :
    (cmd_repeat_model "p.bed" "ext"
      [("cores", Value.int 4), ("reference", Value.str "ref.fasta"),
       ("sample_input", Value.str "s.bam"),
       ("tmp_base", Value.str "tmp")]).map Prod.snd
    ≠ Except.ok
      [("cores", Value.int 4), ("reference", Value.str "ref.fasta"),
       ("sample_input", Value.str "s.bam"),
       ("tmp_base", Value.str "tmp")] := by
  intro hco
  rw [show (cmd_repeat_model "p.bed" "ext"
      [("cores", Value.int 4), ("reference", Value.str "ref.fasta"),
       ("sample_input", Value.str "s.bam"),
       ("tmp_base", Value.str "tmp")]).map Prod.snd
    = Except.ok
      [("cores", Value.int 4), ("reference", Value.str "ref.fasta"),
       ("sample_input", Value.str "s.bam"), ("tmp_base", Value.str "tmp"),
       ("phased_bed", Value.str "p.bed"),
       ("repeat_model", Value.str "tmp/out_repeat.model")] from rfl] at hco
  injection hco with hl
  exact absurd hl (by decide)

/-- C2 amended: `cmd_repeat_model` treats the mapping as mutable state —
every call that returns normally leaves it extended by exactly the
`phased_bed` binding (set before the driver prefix is built) and the
`repeat_model` binding `tmp_base + "/out_repeat.model"`. -/
theorem cmd_repeat_model_config_update (pb ext : String) (kwargs : Config)
    (s : String) (k2 : Config)
    (h : cmd_repeat_model pb ext kwargs = Except.ok (s, k2)) :
    k2 = Config.set (Config.set kwargs "phased_bed" (Value.str pb))
      "repeat_model"
      (Value.str ((Config.get kwargs "tmp_base").toStr
        ++ "/out_repeat.model")) := by
  cases hd : cmd_sentieon_driver (Option.some "phased_bed") false
      (Config.set kwargs "phased_bed" (Value.str pb)) with
  | error e =>
    simp only [cmd_repeat_model, hd] at h
    exact Except.noConfusion h
  | ok cmd =>
    cases ht : Config.getItem
        (Config.set kwargs "phased_bed" (Value.str pb)) "tmp_base" with
    | error e =>
      simp only [cmd_repeat_model, hd, ht] at h
      exact Except.noConfusion h
    | ok tb =>
      simp only [cmd_repeat_model, hd, ht, Except.ok.injEq,
        Prod.mk.injEq] at h
      obtain ⟨hs, hk⟩ := h
      have h1 := Config.getItem_set_ne kwargs "phased_bed" "tmp_base"
        (Value.str pb) (by decide)
      have htb : Config.get kwargs "tmp_base" = tb :=
        Config.get_of_getItem_ok _ _ _ (h1.symm.trans ht)
      rw [htb]
      exact hk.symm

set_option maxRecDepth 8192 in
/-- Witness for the amended C2: the mutated mapping on a concrete
configuration. -/
theorem cmd_repeat_model_config_update_witness :
    Config.set (Config.set
      [("cores", Value.int 4), ("reference", Value.str "ref.fasta"),
       ("sample_input", Value.str "s.bam"), ("tmp_base", Value.str "tmp")]
      "phased_bed" (Value.str "p.bed")) "repeat_model"
      (Value.str ((Config.get
        [("cores", Value.int 4), ("reference", Value.str "ref.fasta"),
         ("sample_input", Value.str "s.bam"), ("tmp_base", Value.str "tmp")]
        "tmp_base").toStr ++ "/out_repeat.model"))
    = [("cores", Value.int 4), ("reference", Value.str "ref.fasta"),
       ("sample_input", Value.str "s.bam"), ("tmp_base", Value.str "tmp"),
       ("phased_bed", Value.str "p.bed"),
       ("repeat_model", Value.str "tmp/out_repeat.model")] :=
  (cmd_repeat_model_config_update "p.bed" "ext"
    [("cores", Value.int 4), ("reference", Value.str "ref.fasta"),
     ("sample_input", Value.str "s.bam"), ("tmp_base", Value.str "tmp")]
    ("sentieon driver -t 4 -r ref.fasta  --interval p.bed -i s.bam --read_filter PhasedReadFilter,phased_vcf=ext,phase_select=tag --algo RepeatModel --phased --min_map_qual 1 --min_group_count 10000 --read_flag_mask drop=supplementary --repeat_extension 5 --max_repeat_unit_size 2 --min_repeat_count 6 tmp/out_repeat.model")
    [("cores", Value.int 4), ("reference", Value.str "ref.fasta"),
     ("sample_input", Value.str "s.bam"), ("tmp_base", Value.str "tmp"),
     ("phased_bed", Value.str "p.bed"),
     ("repeat_model", Value.str "tmp/out_repeat.model")]
    rfl).symm

/-- C3 fails on the code: with a plain-string `dbsnp` path — which the
path-resolution rule and the sibling builder `cmd_dnascope_hp` accept —
`cmd_algo_dnascope` raises `AttributeError` from the direct
`kwargs['dbsnp'].name` access instead of emitting the clause; only a
handle-valued `dbsnp` yields the ` --dbsnp <path> ` clause. -/
theorem cmd_algo_dnascope_plain_dbsnp_fails :
    cmd_algo_dnascope "model0" "out.vcf.gz"
      [("cores", Value.int 4), ("reference", Value.str "ref.fasta"),
       ("sample_input", Value.str "sample.bam"),
       ("dbsnp", Value.str "dbsnp.vcf.gz")] Option.none Value.none
    = Except.error PyErr.attributeError
    ∧ cmd_algo_dnascope "model0" "out.vcf.gz"
      [("cores", Value.int 4), ("reference", Value.str "ref.fasta"),
       ("sample_input", Value.str "sample.bam"),
       ("dbsnp", Value.handle "dbsnp.vcf.gz")] Option.none Value.none
    = Except.ok
        "sentieon driver -t 4 -r ref.fasta  -i sample.bam --algo DNAscope  --dbsnp dbsnp.vcf.gz  --model model0 out.vcf.gz" :=
  ⟨rfl, rfl⟩

/-- C8: `cmd_dnascope_hp` is the DNAscopeHP fragment with an optional
dbSNP clause, the model clause exactly when a model is given, the
mandatory PCR-indel clause, the fixed `--min_repeat_count 6`, and the
output path last; instantiated at the doctest configuration with
`model=None`. -/
theorem cmd_dnascope_hp_spec (model : Option String) (rm hp : String)
    (kwargs : Config) :
    (cmd_dnascope_hp model rm hp kwargs
      = "--algo DNAscopeHP "
        ++ (if (Config.get kwargs "dbsnp").truthy
            then "--dbsnp " ++ (name (Config.get kwargs "dbsnp")).toStr ++ " "
            else "")
        ++ (match model with
            | Option.some m => "--model " ++ m ++ " "
            | Option.none => "")
        ++ ("--pcr_indel_model " ++ rm ++ " --min_repeat_count 6 " ++ hp))
    ∧ cmd_dnascope_hp Option.none "repeat_model" "hp.vcf.gz"
        [("dbsnp", Value.str "dbsnp.vcf.gz")]
      = "--algo DNAscopeHP --dbsnp dbsnp.vcf.gz --pcr_indel_model repeat_model --min_repeat_count 6 hp.vcf.gz" := by
  constructor
  · cases ht : (Config.get kwargs "dbsnp").truthy <;>
      cases model <;>
      simp [cmd_dnascope_hp, ht, String.append_assoc] <;>
      simp [← String.append_assoc]
  · rfl

/-- C10: a `dbsnp` entry holding a falsy value (such as the empty string)
makes both variant callers omit the `--dbsnp` clause entirely and still
succeed: clause presence is decided by truthiness of the value. -/
theorem falsy_dbsnp_omits_clause (model out_vcf : String)
    (bk : Option String) (kwargs : Config) (m : Option String)
    (rm hp d : String)
    (hd : (Config.get kwargs "dbsnp").truthy = false)
    (hdrv : cmd_sentieon_driver bk false kwargs = Except.ok d) :
    cmd_algo_dnascope model out_vcf kwargs bk Value.none
      = Except.ok (d ++ " " ++ "--algo DNAscope " ++ " --model " ++ model
          ++ " " ++ out_vcf)
    ∧ cmd_dnascope_hp m rm hp kwargs
      = "--algo DNAscopeHP "
        ++ (match m with
            | Option.some mm => "--model " ++ mm ++ " "
            | Option.none => "")
        ++ ("--pcr_indel_model " ++ rm ++ " --min_repeat_count 6 " ++ hp) := by
  have hdb : dbsnpClause kwargs = Except.ok "" := by
    simp [dbsnpClause, hd]
  constructor
  · have hg : gvcfClause kwargs Value.none = Except.ok "" := rfl
    simp only [cmd_algo_dnascope, hg, hdb, hdrv]
    simp [String.append_assoc]
  · cases m <;> simp [cmd_dnascope_hp, hd, String.append_assoc] <;>
      simp [← String.append_assoc]

/-- Witness for C10: an empty-string dbsnp on an otherwise complete
configuration. -/
theorem falsy_dbsnp_omits_clause_witness :
    cmd_algo_dnascope "m0" "o.vcf.gz"
      [("cores", Value.int 4), ("reference", Value.str "ref.fasta"),
       ("sample_input", Value.str "s.bam"), ("dbsnp", Value.str "")]
      Option.none Value.none
    = Except.ok
        "sentieon driver -t 4 -r ref.fasta  -i s.bam --algo DNAscope  --model m0 o.vcf.gz" := by
  have h := falsy_dbsnp_omits_clause "m0" "o.vcf.gz" Option.none
    [("cores", Value.int 4), ("reference", Value.str "ref.fasta"),
     ("sample_input", Value.str "s.bam"), ("dbsnp", Value.str "")]
    Option.none "rm" "hp"
    "sentieon driver -t 4 -r ref.fasta  -i s.bam" rfl rfl
  exact h.1.trans (by rfl)

/-- C5: the haploid patch merger emits, after the common
patch prefix, the `--hap1`/`--hap2` clauses from the `nohp_` pattern for
`"HiFi"`, the `--phased` clause instead for `"ONT"`, an `AssertionError`
for every other technology tag, and in both valid branches ends with the
two high-precision per-haplotype clauses from the empty-infix pattern. -/
theorem cmd_pyexec_vcf_mod_haploid_patch_spec
    (h1p h2p patt : String) (pv : Value) (kwargs : Config) (py c : Value)
    (a1 a2 b1 b2 : String)
    (hpy : Config.getItem kwargs "vcf_mod_py" = Except.ok py)
    (hc : Config.getItem kwargs "cores" = Except.ok c)
    (hn1 : pyFormat patt [Value.int 1, Value.str "nohp_"] = Except.ok a1)
    (hn2 : pyFormat patt [Value.int 2, Value.str "nohp_"] = Except.ok a2)
    (hh1 : pyFormat patt [Value.int 1, Value.str ""] = Except.ok b1)
    (hh2 : pyFormat patt [Value.int 2, Value.str ""] = Except.ok b2) :
    cmd_pyexec_vcf_mod_haploid_patch h1p h2p patt "HiFi" pv kwargs
      = Except.ok ("sentieon pyexec " ++ py.toStr ++ " -t " ++ c.toStr
          ++ " " ++ "haploid_patch "
          ++ "--patch1 " ++ h1p ++ " --patch2 " ++ h2p
          ++ " --hap1 " ++ a1 ++ " --hap2 " ++ a2
          ++ " --hap1_hp " ++ b1 ++ " --hap2_hp " ++ b2)
    ∧ cmd_pyexec_vcf_mod_haploid_patch h1p h2p patt "ONT" pv kwargs
      = Except.ok ("sentieon pyexec " ++ py.toStr ++ " -t " ++ c.toStr
          ++ " " ++ "haploid_patch "
          ++ "--patch1 " ++ h1p ++ " --patch2 " ++ h2p
          ++ " --phased " ++ pv.toStr
          ++ " --hap1_hp " ++ b1 ++ " --hap2_hp " ++ b2)
    ∧ (∀ tech, tech ≠ "HiFi" → tech ≠ "ONT" →
        cmd_pyexec_vcf_mod_haploid_patch h1p h2p patt tech pv kwargs
          = Except.error PyErr.assertionError) := by
  refine ⟨?_, ?_, fun tech ht1 ht2 => ?_⟩
  · simp [cmd_pyexec_vcf_mod_haploid_patch, hpy, hc, hn1, hn2, hh1, hh2]
  · simp [cmd_pyexec_vcf_mod_haploid_patch, hpy, hc, hh1, hh2]
  · have hn : ¬(tech = "HiFi" ∨ tech = "ONT") := by
      rintro (h | h) <;> contradiction
    simp [cmd_pyexec_vcf_mod_haploid_patch, hn]

/-- Witness for C5: the doctest pattern and configuration, HiFi branch. -/
theorem cmd_pyexec_vcf_mod_haploid_patch_witness :
    cmd_pyexec_vcf_mod_haploid_patch "h1.vcf.gz" "h2.vcf.gz"
      "out_hap%d_%stmp.vcf.gz" "HiFi" Value.none
      [("cores", Value.int 2), ("vcf_mod_py", Value.str "vcf_mod.py")]
    = Except.ok
        "sentieon pyexec vcf_mod.py -t 2 haploid_patch --patch1 h1.vcf.gz --patch2 h2.vcf.gz --hap1 out_hap1_nohp_tmp.vcf.gz --hap2 out_hap2_nohp_tmp.vcf.gz --hap1_hp out_hap1_tmp.vcf.gz --hap2_hp out_hap2_tmp.vcf.gz" := by
  have h := cmd_pyexec_vcf_mod_haploid_patch_spec "h1.vcf.gz" "h2.vcf.gz"
    "out_hap%d_%stmp.vcf.gz" Value.none
    [("cores", Value.int 2), ("vcf_mod_py", Value.str "vcf_mod.py")]
    (Value.str "vcf_mod.py") (Value.int 2)
    "out_hap1_nohp_tmp.vcf.gz" "out_hap2_nohp_tmp.vcf.gz"
    "out_hap1_tmp.vcf.gz" "out_hap2_tmp.vcf.gz"
    rfl rfl rfl rfl rfl rfl
  exact h.1.trans (by rfl)

/-- The bed row synthesized from one reference-index line: columns 1 and 2
of the tab-split stripped line around a zero start. -/
def bedLine (l : String) : String :=
  match pySplit (pyStrip l) "\t" with
  | t0 :: t1 :: _ => t0 ++ "\t0\t" ++ t1 ++ "\n"
  | _ => ""

/-- Concatenation of a list of rows into file content. -/
def concatStrings : List String → String
  | [] => ""
  | s :: rest => s ++ concatStrings rest

theorem faiToBed_eq_ok (lines : List String)
    (h : ∀ l ∈ lines, 2 ≤ (pySplit (pyStrip l) "\t").length) :
    faiToBed lines = Except.ok (concatStrings (lines.map bedLine)) := by
  induction lines with
  | nil => rfl
  | cons line rest ih =>
    have hl := h line (List.mem_cons_self _ _)
    have hr : ∀ l ∈ rest, 2 ≤ (pySplit (pyStrip l) "\t").length :=
      fun l hm => h l (List.mem_cons_of_mem _ hm)
    cases hts : pySplit (pyStrip line) "\t" with
    | nil => rw [hts] at hl; simp at hl
    | cons t0 ts =>
      cases ts with
      | nil => rw [hts] at hl; simp at hl
      | cons t1 ts2 =>
        simp [faiToBed, hts, ih hr, bedLine, concatStrings]

/-- C6: with no caller-supplied region file, `cmd_bedtools_subtract`
synthesizes `<tmp_base>_reference.bed` with one `<contig>\t0\t<length>\n`
row per line of `<reference>.fai` (columns 1 and 2 of each index row), so
the row count equals the contig count, and uses the synthesized file as
the `-a` argument of `bedtools subtract`. -/
theorem cmd_bedtools_subtract_synthesizes (pb ub : String) (kwargs : Config)
    (fs : FS) (tb ref : Value) (fai : String)
    (ht : Config.getItem kwargs "tmp_base" = Except.ok tb)
    (hr : Config.getItem kwargs "reference" = Except.ok ref)
    (hf : FS.read fs ((name ref).toStr ++ ".fai") = Except.ok fai)
    (hw : ∀ l ∈ pyLines fai, 2 ≤ (pySplit (pyStrip l) "\t").length) :
    cmd_bedtools_subtract Option.none pb ub kwargs fs
      = Except.ok ("bedtools subtract -a " ++ (tb.toStr ++ "_reference.bed")
          ++ " -b " ++ pb ++ " " ++ "> " ++ ub,
          FS.write fs (tb.toStr ++ "_reference.bed")
            (concatStrings ((pyLines fai).map bedLine)))
    ∧ ((pyLines fai).map bedLine).length = (pyLines fai).length := by
  refine ⟨?_, by simp⟩
  simp only [cmd_bedtools_subtract, ht, hr, hf, faiToBed_eq_ok _ hw]

/-- Witness for C6: a two-contig reference index. -/
theorem cmd_bedtools_subtract_synthesizes_witness :
    cmd_bedtools_subtract Option.none "p.bed" "u.bed"
      [("tmp_base", Value.str "tmp"), ("reference", Value.str "ref.fasta")]
      [("ref.fasta.fai",
        "chr1\t248956422\t112\t70\t71\nchr2\t242193529\t252513167\t70\t71\n")]
    = Except.ok ("bedtools subtract -a tmp_reference.bed -b p.bed > u.bed",
        [("ref.fasta.fai",
          "chr1\t248956422\t112\t70\t71\nchr2\t242193529\t252513167\t70\t71\n"),
         ("tmp_reference.bed", "chr1\t0\t248956422\nchr2\t0\t242193529\n")]) := by
  have h := cmd_bedtools_subtract_synthesizes "p.bed" "u.bed"
    [("tmp_base", Value.str "tmp"), ("reference", Value.str "ref.fasta")]
    [("ref.fasta.fai",
      "chr1\t248956422\t112\t70\t71\nchr2\t242193529\t252513167\t70\t71\n")]
    (Value.str "tmp") (Value.str "ref.fasta")
    "chr1\t248956422\t112\t70\t71\nchr2\t242193529\t252513167\t70\t71\n"
    rfl rfl rfl (by decide)
  exact h.1.trans (by rfl)

/-- The number of pipe characters in a command string. -/
def pipeCount (s : String) : Nat := s.data.count '|'

theorem pipeCount_append (a b : String) :
    pipeCount (a ++ b) = pipeCount a + pipeCount b := by
  simp [pipeCount, String.data_append, List.count_append]

/-- C4 fails on the code for an arbitrary `out_vcf`: a pipe character in
the output path gives more than one `'|'`, and `str.replace` substitutes
every occurrence of the compressed-VCF suffix, not only a trailing one —
here `a|b.vcf.gz.vcf.gz` becomes `a|b.g.vcf.gz.g.vcf.gz` rather than the
claimed `a|b.vcf.gz.g.vcf.gz`, and the command holds two pipes. -/
theorem cmd_pyexec_gvcf_combine_counterexample :
    cmd_pyexec_gvcf_combine "s.g.vcf.gz" "a|b.vcf.gz.vcf.gz"
      [("gvcf_combine_py", Value.str "gvcf_combine.py"),
       ("cores", Value.int 4)]
    = Except.ok
        "sentieon pyexec gvcf_combine.py -t 4 s.g.vcf.gz a|b.vcf.gz.vcf.gz - | sentieon util vcfconvert - a|b.g.vcf.gz.g.vcf.gz"
    ∧ pipeCount
        "sentieon pyexec gvcf_combine.py -t 4 s.g.vcf.gz a|b.vcf.gz.vcf.gz - | sentieon util vcfconvert - a|b.g.vcf.gz.g.vcf.gz"
      ≠ 1 :=
  ⟨rfl, by decide⟩

/-- C4 amended: the combine command pipes into the conversion step whose
target is `out_vcf` with every occurrence of `.vcf.gz` replaced by
`.g.vcf.gz`, and it holds exactly one `'|'` whenever the interpolated
values and the converted path are pipe-free. -/
theorem cmd_pyexec_gvcf_combine_spec (gvcf out_vcf : String)
    (kwargs : Config) (py c : Value)
    (hpy : Config.getItem kwargs "gvcf_combine_py" = Except.ok py)
    (hc : Config.getItem kwargs "cores" = Except.ok c)
    (h1 : pipeCount py.toStr = 0) (h2 : pipeCount c.toStr = 0)
    (h3 : pipeCount gvcf = 0) (h4 : pipeCount out_vcf = 0)
    (h5 : pipeCount (pyReplace out_vcf ".vcf.gz" ".g.vcf.gz") = 0) :
    cmd_pyexec_gvcf_combine gvcf out_vcf kwargs
      = Except.ok (("sentieon pyexec " ++ py.toStr ++ " -t " ++ c.toStr
          ++ " " ++ gvcf ++ " " ++ out_vcf ++ " -")
          ++ (" | sentieon util vcfconvert - "
            ++ pyReplace out_vcf ".vcf.gz" ".g.vcf.gz"))
    ∧ pipeCount (("sentieon pyexec " ++ py.toStr ++ " -t " ++ c.toStr
          ++ " " ++ gvcf ++ " " ++ out_vcf ++ " -")
          ++ (" | sentieon util vcfconvert - "
            ++ pyReplace out_vcf ".vcf.gz" ".g.vcf.gz")) = 1 := by
  constructor
  · simp only [cmd_pyexec_gvcf_combine, hpy, hc]
    simp only [← String.append_assoc]
  · simp only [pipeCount_append, h1, h2, h3, h4, h5]
    decide

/-- Witness for the amended C4: a plain gVCF/VCF pair. -/
theorem cmd_pyexec_gvcf_combine_spec_witness :
    pipeCount
      "sentieon pyexec gvcf_combine.py -t 4 s.g.vcf.gz out.vcf.gz - | sentieon util vcfconvert - out.g.vcf.gz"
      = 1 :=
  (cmd_pyexec_gvcf_combine_spec "s.g.vcf.gz" "out.vcf.gz"
    [("gvcf_combine_py", Value.str "gvcf_combine.py"),
     ("cores", Value.int 4)]
    (Value.str "gvcf_combine.py") (Value.int 4)
    rfl rfl rfl rfl rfl rfl (by decide)).2

end Sentieon
